import Mathlib

/-
  Verification of the peer-connectivity layer of boringtun
  (src/boringtun/src/device/peer.rs).

  The Rust code is shallowly embedded as pure Lean functions.  Rust
  string slices are modelled as `List Char` (so that everything
  kernel-reduces on concrete inputs):
  * `AllowedIP.from_str` embeds the `FromStr` impl for `AllowedIP`
    (lines 36-52).  The standard-library parser `IpAddr::from_str` is
    an external collaborator and is taken as a parameter; Rust's
    `u8::from_str` is embedded as `parseU8`, and `str::split('/')` as
    `splitOn`.
  * The SOCKS5 UDP-ASSOCIATE client inside `Peer::connect_endpoint`
    (lines 121-204) is embedded with the proxy's TCP byte stream
    modelled as a list of bytes to be read, and the bytes written to
    the control connection collected as a trace.
  * OS sockets are modelled by a record `Socket` that accumulates the
    configuration the code requests (domain, type, protocol, options,
    bind and connect targets); fallible syscalls draw their outcome
    from an environment `Env`.
  * The `Endpoint` state machine (`set_endpoint`, `connect_endpoint`,
    `shutdown_endpoint`, lines 86-235) becomes explicit state passing;
    each operation additionally reports which socket (if any) it shut
    down, and the `expect` panic on a missing address is modelled by
    `Option`.
-/

deriving instance DecidableEq for Except

namespace Boringtun

/-- Rust string slices, modelled as lists of characters. -/
abbrev Str := List Char

/-- Embeds Rust's `str::split(c)` (line 40): the fields between
occurrences of the separator, in order; `n` separators yield `n + 1`
fields (empty fields included). -/
def splitOn (sep : Char) : Str → List Str
  | [] => [[]]
  | c :: rest =>
    if c = sep then [] :: splitOn sep rest
    else
      match splitOn sep rest with
      | f :: fs => (c :: f) :: fs
      | [] => [[c]]

/-- An IP address: either IPv4 (four octets) or IPv6 (eight 16-bit
segments, as produced by `Ipv6Addr::from([u8; 16])`). -/
inductive IpAddr
  | v4 (a b c d : Nat)
  | v6 (s0 s1 s2 s3 s4 s5 s6 s7 : Nat)
deriving DecidableEq, Repr

/-- `true` iff the address is an IPv4 address, as `IpAddr::is_ipv4`. -/
def IpAddr.is_ipv4 : IpAddr → Bool
  | .v4 _ _ _ _ => true
  | .v6 _ _ _ _ _ _ _ _ => false

/-- `true` iff the address is an IPv6 address, as `IpAddr::is_ipv6`. -/
def IpAddr.is_ipv6 : IpAddr → Bool
  | .v4 _ _ _ _ => false
  | .v6 _ _ _ _ _ _ _ _ => true

/-- A socket address: IP address plus port, as `std::net::SocketAddr`. -/
structure SocketAddr where
  ip : IpAddr
  port : Nat
deriving DecidableEq, Repr

/-- Embeds Rust's `u8::from_str` (used as `ip[1].parse::<u8>()` at
line 45): an optional leading `+`, then at least one ASCII digit, and
the value must fit in a `u8` (≤ 255).  Returns `none` on any parse or
overflow error. -/
def parseU8 (s : Str) : Option Nat :=
  let digits := match s with
    | '+' :: rest => rest
    | _ => s
  if digits = [] then none
  else if digits.all (fun c => c.isDigit) then
    let n := digits.foldl (fun acc c => acc * 10 + (c.toNat - 48)) 0
    if n ≤ 255 then some n else none
  else none

/-- One CIDR range: `AllowedIP` (peer.rs lines 30-34). -/
structure AllowedIP where
  addr : IpAddr
  cidr : Nat
deriving DecidableEq, Repr

/-- Embeds `impl FromStr for AllowedIP` (peer.rs lines 36-52).

`parseIp` stands for the external standard-library parser
`IpAddr::from_str` (`ip[0].parse::<IpAddr>()`): `some a` when the
field parses as the address `a`, `none` on a parse error.  The input
is split on `/`; exactly two fields are required; the v4 arm requires
`cidr <= 32` and the v6 arm `cidr <= 128`; everything else is the
error `"Invalid IP format"`. -/
def AllowedIP.from_str (parseIp : Str → Option IpAddr) (s : Str) :
    Except String AllowedIP :=
  match splitOn '/' s with
  | [f0, f1] =>
    match parseIp f0, parseU8 f1 with
    | some (IpAddr.v4 a b c d), some cidr =>
      if cidr ≤ 32 then .ok ⟨IpAddr.v4 a b c d, cidr⟩
      else .error "Invalid IP format"
    | some (IpAddr.v6 s0 s1 s2 s3 s4 s5 s6 s7), some cidr =>
      if cidr ≤ 128 then .ok ⟨IpAddr.v6 s0 s1 s2 s3 s4 s5 s6 s7, cidr⟩
      else .error "Invalid IP format"
    | _, _ => .error "Invalid IP format"
  | _ => .error "Invalid IP format"

/-- A concrete stand-in for the std `IpAddr` parser, used only to
instantiate theorems at concrete inputs. -/
def parseIpTest : Str → Option IpAddr := fun s =>
  if s = "10.0.0.1".data then some (IpAddr.v4 10 0 0 1)
  else if s = "::1".data then some (IpAddr.v6 0 0 0 0 0 0 0 1)
  else none

/-! ## Sockets and the syscall environment -/

/-- A socket address family, as `socket2::Domain`. -/
inductive Domain
  | ipv4
  | ipv6
deriving DecidableEq, Repr

/-- Embeds `Domain::for_address`: the domain matching the address's
family. -/
def Domain.for_address (a : SocketAddr) : Domain :=
  match a.ip with
  | .v4 _ _ _ _ => .ipv4
  | .v6 _ _ _ _ _ _ _ _ => .ipv6

/-- A socket type, as `socket2::Type` (only the two values relevant
here). -/
inductive SockType
  | stream
  | dgram
deriving DecidableEq, Repr

/-- A transport protocol, as `socket2::Protocol` (only UDP occurs). -/
inductive Protocol
  | udp
deriving DecidableEq, Repr

/-- An OS socket, modelled as the record of everything the code has
requested of it: creation arguments, options set, bind and connect
targets.  `for_addr` is a ghost history variable, not OS state: it
records the endpoint address that was current when `connect_endpoint`
installed this socket into `Endpoint.conn`, and is used only to state
the consistency invariant between `addr` and `conn`. -/
structure Socket where
  domain : Domain
  typ : SockType
  protocol : Option Protocol
  reuse_address : Bool
  nonblocking : Bool
  mark : Option Nat
  bound_to : Option SocketAddr
  connected_to : Option SocketAddr
  for_addr : Option SocketAddr
deriving DecidableEq, Repr

/-- Embeds `socket2::Socket::new(domain, typ, protocol)`: a fresh
socket with no options set and no bind/connect target. -/
def Socket.new (d : Domain) (t : SockType) (p : Option Protocol) : Socket :=
  { domain := d, typ := t, protocol := p, reuse_address := false,
    nonblocking := false, mark := none, bound_to := none,
    connected_to := none, for_addr := none }

/-- The device `Error` type, restricted to the variants `peer.rs`
produces: `Connect(String)` for connection/protocol failures and (via
the `From<io::Error>` conversion behind `?`) a wrapped I/O error.
Modelled from the spec: the enum itself lives in `device/mod.rs`,
outside the given source; only these two shapes are reachable from
`peer.rs`. -/
inductive Error
  | connect (msg : String)
  | ioError (msg : String)
deriving DecidableEq, Repr

/-- The endpoint record (peer.rs lines 14-18). -/
structure Endpoint where
  addr : Option SocketAddr
  conn : Option Socket
deriving DecidableEq, Repr

/-- Proxy configuration, consumed read-only (external type). -/
structure ProxyConfig where
  proxy_type : Str
  address : Str

/-- Outcomes of the external world's fallible calls: the std
`SocketAddr` parser, the TCP connection to the proxy (yielding, on
success, the byte stream the proxy will send), and success/failure of
each socket syscall.  Errors carry the platform error's display
string. -/
structure Env where
  parseSocketAddr : Str → Except String SocketAddr
  tcpConnect : SocketAddr → Except String (List Nat)
  socket_new_ok : Domain → SockType → Option Protocol → Bool
  reuse_ok : Bool
  bind_ok : Bool
  connect_ok : Bool
  nonblocking_ok : Bool
  mark_ok : Bool

/-! ## The SOCKS5 UDP-ASSOCIATE exchange (peer.rs lines 135-186) -/

/-- The SOCKS5 greeting sent at line 137: version 5, one method
offered, "no authentication". -/
def socks5_greeting : List Nat := [0x05, 0x01, 0x00]

/-- The big-endian byte pair of a `u16`, as `u16::to_be_bytes`. -/
def u16_be_bytes (p : Nat) : List Nat := [p / 256 % 256, p % 256]

/-- The UDP-ASSOCIATE request built at lines 150-152: version,
CMD=UDP-ASSOCIATE, reserved, ATYP=IPv4, address `0.0.0.0`, and the
desired local port big-endian. -/
def socks5_request (port : Nat) : List Nat :=
  [0x05, 0x03, 0x00, 0x01] ++ [0, 0, 0, 0] ++ u16_be_bytes port

/-- Embeds the protocol exchange over the TCP control connection,
lines 137-186: writes the greeting, checks the 2-byte reply, writes
the UDP-ASSOCIATE request, checks the 4-byte reply header, and parses
the relay address according to ATYP.  `input` is the byte stream the
proxy sends; the first component of the result is the full sequence
of bytes written to the stream, the second the parsed relay address
or the error returned.  A short read (`read_exact` hitting end of
stream) is the wrapped I/O error produced by `?`. -/
def socks5_parse_relay (input : List Nat) (port : Nat) :
    List Nat × Except Error SocketAddr :=
  match input with
  | r0 :: r1 :: rest =>
    if r0 ≠ 0x05 ∨ r1 ≠ 0x00 then
      (socks5_greeting, .error (.connect "SOCKS5 handshake failed"))
    else
      match rest with
      | v :: rep :: _rsv :: atyp :: rest2 =>
        if v ≠ 0x05 ∨ rep ≠ 0x00 then
          (socks5_greeting ++ socks5_request port,
           .error (.connect ("SOCKS5 UDP ASSOCIATE failed: REP=" ++ toString rep)))
        else if atyp = 0x01 then
          match rest2 with
          | a :: b :: c :: d :: p1 :: p2 :: _ =>
            (socks5_greeting ++ socks5_request port,
             .ok ⟨IpAddr.v4 a b c d, p1 * 256 + p2⟩)
          | _ => (socks5_greeting ++ socks5_request port,
                  .error (.ioError "failed to fill whole buffer"))
        else if atyp = 0x04 then
          match rest2 with
          | b0 :: b1 :: b2 :: b3 :: b4 :: b5 :: b6 :: b7 :: b8 :: b9 :: b10 ::
            b11 :: b12 :: b13 :: b14 :: b15 :: p1 :: p2 :: _ =>
            (socks5_greeting ++ socks5_request port,
             .ok ⟨IpAddr.v6 (b0 * 256 + b1) (b2 * 256 + b3) (b4 * 256 + b5)
                    (b6 * 256 + b7) (b8 * 256 + b9) (b10 * 256 + b11)
                    (b12 * 256 + b13) (b14 * 256 + b15),
                  p1 * 256 + p2⟩)
          | _ => (socks5_greeting ++ socks5_request port,
                  .error (.ioError "failed to fill whole buffer"))
        else
          (socks5_greeting ++ socks5_request port,
           .error (.connect "Unsupported address type in SOCKS5 response"))
      | _ => (socks5_greeting ++ socks5_request port,
              .error (.ioError "failed to fill whole buffer"))
  | _ => (socks5_greeting, .error (.ioError "failed to fill whole buffer"))

/-- Embeds lines 189-204: creation of the UDP socket for the relay
address (note the source passes `Type::STREAM` with `Protocol::UDP`),
`set_reuse_address(true)`, bind to the wildcard address of the relay's
family on the desired local port, and UDP-connect to the relay. -/
def mk_relay_socket (env : Env) (relay_addr : SocketAddr) (port : Nat) :
    Except Error Socket :=
  if env.socket_new_ok (Domain.for_address relay_addr) SockType.stream
      (some Protocol.udp) then
    let udp_socket :=
      Socket.new (Domain.for_address relay_addr) SockType.stream
        (some Protocol.udp)
    if env.reuse_ok then
      let udp_socket := { udp_socket with reuse_address := true }
      let bind_addr : SocketAddr :=
        if relay_addr.ip.is_ipv4 then ⟨IpAddr.v4 0 0 0 0, port⟩
        else ⟨IpAddr.v6 0 0 0 0 0 0 0 0, port⟩
      if env.bind_ok then
        let udp_socket := { udp_socket with bound_to := some bind_addr }
        if env.connect_ok then
          .ok { udp_socket with connected_to := some relay_addr }
        else .error (.ioError "connect failed")
      else .error (.ioError "bind failed")
    else .error (.ioError "set_reuse_address failed")
  else .error (.connect "Failed to create UDP socket: os error")

/-! ## The endpoint operations (peer.rs lines 86-235) -/

/-- Embeds lines 121-217: obtaining the UDP socket, by proxy type.
Returns the bytes written to the proxy control connection together
with the socket or the error.  The `"socks5"` arm parses the proxy
address, opens the TCP control connection, runs the exchange and
builds the relay socket; the `"http"` and unknown arms log a warning
and create a direct socket from the peer address's family, exactly as
the no-proxy arm does. -/
def connect_socket_result (env : Env) (addr : SocketAddr) (port : Nat)
    (proxy : Option ProxyConfig) : List Nat × Except Error Socket :=
  match proxy with
  | some proxy_cfg =>
    if proxy_cfg.proxy_type = "socks5".data then
      match env.parseSocketAddr proxy_cfg.address with
      | .error e => ([], .error (.connect ("Invalid proxy address: " ++ e)))
      | .ok proxy_addr =>
        match env.tcpConnect proxy_addr with
        | .error e =>
          ([], .error (.connect ("Failed to connect to proxy: " ++ e)))
        | .ok input =>
          match socks5_parse_relay input port with
          | (written, .error e) => (written, .error e)
          | (written, .ok relay_addr) =>
            (written, mk_relay_socket env relay_addr port)
    else
      ([],
       if env.socket_new_ok (Domain.for_address addr) SockType.stream
           (some Protocol.udp) then
         .ok (Socket.new (Domain.for_address addr) SockType.stream
               (some Protocol.udp))
       else .error (.ioError "socket creation failed"))
  | none =>
    ([],
     if env.socket_new_ok (Domain.for_address addr) SockType.stream
         (some Protocol.udp) then
       .ok (Socket.new (Domain.for_address addr) SockType.stream
             (some Protocol.udp))
     else .error (.ioError "socket creation failed"))

/-- The observable outcome of one `connect_endpoint` call: the
endpoint state after the call, the returned socket or error, and the
bytes written to the proxy control connection. -/
structure ConnectOut where
  state : Endpoint
  result : Except Error Socket
  written : List Nat
deriving DecidableEq, Repr

/-- Embeds `Peer::connect_endpoint` (lines 105-235).  Fails with
`Connect("Connected")` when a socket is already open; `none` models
the `expect` panic when `addr` is unset.  Otherwise the socket is
obtained per proxy type, set nonblocking, optionally marked
(`fwmark`, Linux path), and a clone is stored into `conn` while the
socket itself is returned; the ghost `for_addr` of the stored clone
records the address the connection was established for. -/
def connect_endpoint (env : Env) (e : Endpoint) (port : Nat)
    (fwmark : Option Nat) (proxy : Option ProxyConfig) : Option ConnectOut :=
  if e.conn.isSome then
    some ⟨e, .error (.connect "Connected"), []⟩
  else
    match e.addr with
    | none => none
    | some addr =>
      match connect_socket_result env addr port proxy with
      | (written, .error e') => some ⟨e, .error e', written⟩
      | (written, .ok udp_conn) =>
        if env.nonblocking_ok then
          let udp_conn := { udp_conn with nonblocking := true }
          match fwmark with
          | some m =>
            if env.mark_ok then
              let udp_conn := { udp_conn with mark := some m }
              some ⟨⟨e.addr, some { udp_conn with for_addr := some addr }⟩,
                    .ok udp_conn, written⟩
            else some ⟨e, .error (.ioError "set_mark failed"), written⟩
          | none =>
            some ⟨⟨e.addr, some { udp_conn with for_addr := some addr }⟩,
                  .ok udp_conn, written⟩
        else some ⟨e, .error (.ioError "set_nonblocking failed"), written⟩

/-- Embeds `Peer::set_endpoint` (lines 93-103): a no-op when the
address is unchanged; otherwise the open socket, if any, is shut down
(both directions) and the address replaced, leaving `conn = None`.
The second component is the socket passed to `shutdown(Both)` (`none`
when no socket was open). -/
def set_endpoint (e : Endpoint) (addr : SocketAddr) :
    Endpoint × Option Socket :=
  if e.addr = some addr then (e, none)
  else (⟨some addr, none⟩, e.conn)

/-- Embeds `Peer::shutdown_endpoint` (lines 86-91): takes the open
socket out of `conn` and shuts it down; a no-op when no socket is
open.  The second component is the socket that was shut down. -/
def shutdown_endpoint (e : Endpoint) : Endpoint × Option Socket :=
  match e.conn with
  | some c => (⟨e.addr, none⟩, some c)
  | none => (e, none)

/-- Endpoint states reachable from `Peer::new` (which initializes
`conn = None`, line 65-68) by any sequence of `set_endpoint`,
`connect_endpoint` and `shutdown_endpoint` calls. -/
inductive Reachable : Endpoint → Prop
  | init (a : Option SocketAddr) : Reachable ⟨a, none⟩
  | set (e : Endpoint) (a : SocketAddr) : Reachable e →
      Reachable (set_endpoint e a).1
  | connect (e : Endpoint) (env : Env) (port : Nat) (fwmark : Option Nat)
      (proxy : Option ProxyConfig) (o : ConnectOut) : Reachable e →
      connect_endpoint env e port fwmark proxy = some o → Reachable o.state
  | shutdown (e : Endpoint) : Reachable e →
      Reachable (shutdown_endpoint e).1

/-! ## Concrete instances used to instantiate theorems -/

/-- An environment in which every syscall succeeds; the proxy-side
functions are irrelevant defaults. -/
def envAll : Env :=
  { parseSocketAddr := fun _ => .error "invalid socket address syntax",
    tcpConnect := fun _ => .ok [],
    socket_new_ok := fun _ _ _ => true,
    reuse_ok := true, bind_ok := true, connect_ok := true,
    nonblocking_ok := true, mark_ok := true }

/-- A concrete peer address. -/
def addr0 : SocketAddr := ⟨IpAddr.v4 10 0 0 1, 51820⟩

/-- A second, different concrete peer address. -/
def addr1 : SocketAddr := ⟨IpAddr.v4 192 168 1 7, 4500⟩

/-- A successful proxy byte stream: greeting reply `[5, 0]`, then
UDP-ASSOCIATE reply header `[5, 0, 0, 1]` and IPv4 relay
`1.2.3.4:8080`. -/
def goodProxyResp : List Nat := [5, 0, 5, 0, 0, 1, 1, 2, 3, 4, 31, 144]

/-- An all-success environment whose TCP connection to the proxy
yields `goodProxyResp` and whose address parser knows one proxy
address. -/
def envProxy : Env :=
  { envAll with
    parseSocketAddr := fun s =>
      if s = "127.0.0.1:1080".data then .ok ⟨IpAddr.v4 127 0 0 1, 1080⟩
      else .error "invalid socket address syntax",
    tcpConnect := fun _ => .ok goodProxyResp }

/-- A SOCKS5 proxy configuration pointing at the test proxy. -/
def proxySocks5 : ProxyConfig := ⟨"socks5".data, "127.0.0.1:1080".data⟩

/-- An HTTP proxy configuration (unsupported type). -/
def proxyHttp : ProxyConfig := ⟨"http".data, "127.0.0.1:3128".data⟩

/-- The socket returned by a direct (no-proxy or non-SOCKS5 fallback)
`connect_endpoint` under `envAll` for a v4 peer address: freshly
created, nonblocking set, never bound or connected. -/
def plainSockRet : Socket :=
  { domain := .ipv4, typ := .stream, protocol := some .udp,
    reuse_address := false, nonblocking := true, mark := none,
    bound_to := none, connected_to := none, for_addr := none }

/-- The clone of `plainSockRet` stored into `conn` when the peer
address is `addr0`. -/
def plainSockStored : Socket :=
  { plainSockRet with for_addr := some addr0 }

/-- The relay socket returned by the SOCKS5 path under `envProxy`
(relay `1.2.3.4:8080`, local port 51820). -/
def relaySockRet : Socket :=
  { domain := .ipv4, typ := .stream, protocol := some .udp,
    reuse_address := true, nonblocking := true, mark := none,
    bound_to := some ⟨IpAddr.v4 0 0 0 0, 51820⟩,
    connected_to := some ⟨IpAddr.v4 1 2 3 4, 8080⟩, for_addr := none }

/-- The clone of `relaySockRet` stored into `conn` when the peer
address is `addr0`. -/
def relaySockStored : Socket :=
  { relaySockRet with for_addr := some addr0 }

/-- An environment in which `set_nonblocking` fails and everything
else succeeds. -/
def envNoNb : Env := { envAll with nonblocking_ok := false }

/-!
## Theorems

`connect_endpoint_cases` is the shared shape lemma: every completed
`connect_endpoint` call either fails leaving the state untouched, or
succeeds having stored (for the current address) a clone of the
returned socket.
-/

theorem connect_endpoint_cases (env : Env) (e : Endpoint) (port : Nat)
    (fwmark : Option Nat) (proxy : Option ProxyConfig) (o : ConnectOut)
    (h : connect_endpoint env e port fwmark proxy = some o) :
    (o.state = e ∧ ∃ er, o.result = .error er) ∨
    (∃ addr udp, e.addr = some addr ∧ e.conn = none ∧
      o.result = .ok udp ∧
      o.state = ⟨some addr, some { udp with for_addr := some addr }⟩) := by
  unfold connect_endpoint at h
  split at h
  case isTrue hc =>
    injection h with h
    subst h
    exact Or.inl ⟨rfl, _, rfl⟩
  case isFalse hc =>
    have hconn : e.conn = none := Option.not_isSome_iff_eq_none.mp hc
    split at h
    · exact absurd h (by simp)
    case h_2 addr haddr =>
      split at h
      case h_1 written e' hres =>
        injection h with h
        subst h
        exact Or.inl ⟨rfl, _, rfl⟩
      case h_2 written udp hres =>
        split at h
        case isTrue hnb =>
          split at h
          case h_1 m =>
            split at h
            case isTrue hm =>
              injection h with h
              subst h
              exact Or.inr ⟨addr, _, haddr, hconn, rfl, by simp [haddr]⟩
            case isFalse hm =>
              injection h with h
              subst h
              exact Or.inl ⟨rfl, _, rfl⟩
          case h_2 =>
            injection h with h
            subst h
            exact Or.inr ⟨addr, _, haddr, hconn, rfl, by simp [haddr]⟩
        case isFalse hnb =>
          injection h with h
          subst h
          exact Or.inl ⟨rfl, _, rfl⟩

/-- Claim C8: `AllowedIP` parsing succeeds with exactly the pair
`(addr, cidr)` iff the input splits on `/` into exactly two fields,
the first parses as an IP address, the second as an unsigned integer,
and the prefix respects the family bound (v4 ≤ 32, v6 ≤ 128); every
other input fails with the `InvalidFormat` error
`"Invalid IP format"`, with no side effects (the function is pure). -/
theorem allowedip_parse_iff :
    (∀ (parseIp : Str → Option IpAddr) (s : Str) (a : IpAddr) (c : Nat),
      AllowedIP.from_str parseIp s = .ok ⟨a, c⟩ ↔
        ∃ f0 f1, splitOn '/' s = [f0, f1] ∧ parseIp f0 = some a ∧
          parseU8 f1 = some c ∧
          ((a.is_ipv4 = true ∧ c ≤ 32) ∨ (a.is_ipv6 = true ∧ c ≤ 128))) ∧
    (∀ (parseIp : Str → Option IpAddr) (s : Str),
      (∃ r, AllowedIP.from_str parseIp s = .ok r) ∨
        AllowedIP.from_str parseIp s = .error "Invalid IP format") := by
  constructor
  · intro parseIp s a c
    constructor
    · intro h
      rcases hsp : splitOn '/' s with _ | ⟨f0, _ | ⟨f1, _ | ⟨g, gs⟩⟩⟩ <;>
        simp only [AllowedIP.from_str, hsp] at h <;>
        try exact absurd h (by simp)
      rcases hpi : parseIp f0 with
          _ | (⟨x, y, z, w⟩ | ⟨s0, s1, s2, s3, s4, s5, s6, s7⟩) <;>
        rcases hpu : parseU8 f1 with _ | cidr <;>
        simp only [hpi, hpu] at h <;>
        try exact absurd h (by simp)
      · split at h
        case isTrue hle =>
          injection h with h
          injection h with h1 h2
          subst h1
          subst h2
          exact ⟨f0, f1, rfl, hpi, hpu, Or.inl ⟨rfl, hle⟩⟩
        case isFalse => exact absurd h (by simp)
      · split at h
        case isTrue hle =>
          injection h with h
          injection h with h1 h2
          subst h1
          subst h2
          exact ⟨f0, f1, rfl, hpi, hpu, Or.inr ⟨rfl, hle⟩⟩
        case isFalse => exact absurd h (by simp)
    · rintro ⟨f0, f1, hsp, hpi, hpu, hcond⟩
      cases a with
      | v4 x y z w =>
        rcases hcond with ⟨_, hle⟩ | ⟨hv6, _⟩
        · simp [AllowedIP.from_str, hsp, hpi, hpu, hle]
        · exact absurd hv6 (by simp [IpAddr.is_ipv6])
      | v6 s0 s1 s2 s3 s4 s5 s6 s7 =>
        rcases hcond with ⟨hv4, _⟩ | ⟨_, hle⟩
        · exact absurd hv4 (by simp [IpAddr.is_ipv4])
        · simp [AllowedIP.from_str, hsp, hpi, hpu, hle]
  · intro parseIp s
    unfold AllowedIP.from_str
    split
    · split
      · split
        · exact Or.inl ⟨_, rfl⟩
        · exact Or.inr rfl
      · split
        · exact Or.inl ⟨_, rfl⟩
        · exact Or.inr rfl
      · exact Or.inr rfl
    · exact Or.inr rfl

/-- Witness for C8: the characterization instantiated at
`"10.0.0.1/24"`, and the overlong prefixes `"10.0.0.1/33"` and
`"::1/129"` from the claim, under the concrete IP parser
`parseIpTest`. -/
theorem allowedip_parse_iff_witness :
    AllowedIP.from_str parseIpTest "10.0.0.1/24".data =
      .ok ⟨IpAddr.v4 10 0 0 1, 24⟩ ∧
    AllowedIP.from_str parseIpTest "10.0.0.1/33".data =
      .error "Invalid IP format" ∧
    AllowedIP.from_str parseIpTest "::1/129".data =
      .error "Invalid IP format" :=
  ⟨(allowedip_parse_iff.1 parseIpTest "10.0.0.1/24".data
      (IpAddr.v4 10 0 0 1) 24).mpr
    ⟨"10.0.0.1".data, "24".data, by decide, by decide, by decide,
      Or.inl ⟨rfl, by decide⟩⟩,
   rfl, rfl⟩

/-- Claim C1: over the TCP control connection the SOCKS5 client sends
exactly the greeting `[0x05, 0x01, 0x00]`, and then (once the
greeting reply has been accepted) exactly the UDP-ASSOCIATE request
`[0x05, 0x03, 0x00, 0x01]` followed by 4 zero bytes and the 2-byte
big-endian encoding of the desired local port — never anything
else. -/
theorem socks5_client_writes (input : List Nat) (port : Nat)
    (hport : port < 65536) :
    ((socks5_parse_relay input port).1 = socks5_greeting ∨
      (socks5_parse_relay input port).1 =
        socks5_greeting ++ socks5_request port) ∧
    (∀ rest, input = 0x05 :: 0x00 :: rest →
      (socks5_parse_relay input port).1 =
        socks5_greeting ++ socks5_request port) ∧
    socks5_greeting = [0x05, 0x01, 0x00] ∧
    socks5_request port =
      [0x05, 0x03, 0x00, 0x01, 0, 0, 0, 0, port / 256, port % 256] := by
  have hreq : socks5_request port =
      [0x05, 0x03, 0x00, 0x01, 0, 0, 0, 0, port / 256, port % 256] := by
    have : port / 256 % 256 = port / 256 := by omega
    simp [socks5_request, u16_be_bytes, this]
  have hgood : ∀ rest, (socks5_parse_relay (0x05 :: 0x00 :: rest) port).1 =
      socks5_greeting ++ socks5_request port := by
    intro rest
    simp only [socks5_parse_relay]
    rw [if_neg (by simp)]
    split
    case h_2 => rfl
    case h_1 =>
      split_ifs <;> try rfl
      all_goals (split <;> rfl)
  refine ⟨?_, fun rest h => h ▸ hgood rest, rfl, hreq⟩
  rcases input with _ | ⟨r0, _ | ⟨r1, rest⟩⟩
  · exact Or.inl rfl
  · exact Or.inl rfl
  · by_cases h : r0 ≠ 0x05 ∨ r1 ≠ 0x00
    · left
      simp only [socks5_parse_relay]
      rw [if_pos h]
    · have hr0 : r0 = 0x05 := by omega
      have hr1 : r1 = 0x00 := by omega
      subst hr0; subst hr1
      exact Or.inr (hgood rest)

/-- Witness for C1: the full greeting-plus-request trace on the
successful proxy response, at port 51820. -/
theorem socks5_client_writes_witness :
    51820 < 65536 ∧
    (socks5_parse_relay goodProxyResp 51820).1 =
      socks5_greeting ++ socks5_request 51820 :=
  ⟨by decide,
   (socks5_client_writes goodProxyResp 51820 (by decide)).2.1
     [5, 0, 0, 1, 1, 2, 3, 4, 31, 144] rfl⟩

/-- Claim C2: the SOCKS5 client fails with
`Connect("SOCKS5 handshake failed")` whenever the 2-byte greeting
reply is not `[0x05, 0x00]`; fails with a `Connect` error carrying
the proxy's reply code whenever byte 0 of the 4-byte UDP-ASSOCIATE
reply header is not `0x05` or byte 1 is not `0x00`; fails with the
unsupported-address-type `Connect` error whenever the ATYP byte is
neither `0x01` nor `0x04`; with ATYP `0x01` it reads 4 address bytes
plus 2 port bytes as an IPv4 relay address, and with ATYP `0x04` it
reads 16 address bytes plus 2 port bytes as an IPv6 relay address. -/
theorem socks5_client_error_handling :
    (∀ (r0 r1 : Nat) (rest : List Nat) (port : Nat),
      r0 ≠ 0x05 ∨ r1 ≠ 0x00 →
      (socks5_parse_relay (r0 :: r1 :: rest) port).2 =
        .error (.connect "SOCKS5 handshake failed")) ∧
    (∀ (v rep rsv atyp : Nat) (rest : List Nat) (port : Nat),
      v ≠ 0x05 ∨ rep ≠ 0x00 →
      (socks5_parse_relay
          (0x05 :: 0x00 :: v :: rep :: rsv :: atyp :: rest) port).2 =
        .error (.connect ("SOCKS5 UDP ASSOCIATE failed: REP=" ++
          toString rep))) ∧
    (∀ (rsv atyp : Nat) (rest : List Nat) (port : Nat),
      atyp ≠ 0x01 → atyp ≠ 0x04 →
      (socks5_parse_relay
          (0x05 :: 0x00 :: 0x05 :: 0x00 :: rsv :: atyp :: rest) port).2 =
        .error (.connect "Unsupported address type in SOCKS5 response")) ∧
    (∀ (rsv a b c d p1 p2 : Nat) (tail : List Nat) (port : Nat),
      (socks5_parse_relay
          (0x05 :: 0x00 :: 0x05 :: 0x00 :: rsv :: 0x01 ::
            a :: b :: c :: d :: p1 :: p2 :: tail) port).2 =
        .ok ⟨IpAddr.v4 a b c d, p1 * 256 + p2⟩) ∧
    (∀ (rsv b0 b1 b2 b3 b4 b5 b6 b7 b8 b9 b10 b11 b12 b13 b14 b15
        p1 p2 : Nat) (tail : List Nat) (port : Nat),
      (socks5_parse_relay
          (0x05 :: 0x00 :: 0x05 :: 0x00 :: rsv :: 0x04 ::
            b0 :: b1 :: b2 :: b3 :: b4 :: b5 :: b6 :: b7 :: b8 :: b9 ::
            b10 :: b11 :: b12 :: b13 :: b14 :: b15 :: p1 :: p2 :: tail)
          port).2 =
        .ok ⟨IpAddr.v6 (b0 * 256 + b1) (b2 * 256 + b3) (b4 * 256 + b5)
              (b6 * 256 + b7) (b8 * 256 + b9) (b10 * 256 + b11)
              (b12 * 256 + b13) (b14 * 256 + b15), p1 * 256 + p2⟩) := by
  refine ⟨?_, ?_, ?_, ?_, ?_⟩
  · intro r0 r1 rest port h
    simp only [socks5_parse_relay]
    rw [if_pos h]
  · intro v rep rsv atyp rest port h
    simp only [socks5_parse_relay]
    rw [if_neg (by simp), if_pos h]
  · intro rsv atyp rest port h1 h4
    simp only [socks5_parse_relay]
    rw [if_neg (by simp), if_neg (by simp), if_neg h1, if_neg h4]
  · intro rsv a b c d p1 p2 tail port
    rfl
  · intro rsv b0 b1 b2 b3 b4 b5 b6 b7 b8 b9 b10 b11 b12 b13 b14 b15
      p1 p2 tail port
    rfl

/-- Witness for C2: a rejected greeting (`[0x05, 0xFF]`), a rejected
REP code, a rejected ATYP (`0x03`, domain name), and the accepted
IPv4 relay reply. -/
theorem socks5_client_error_handling_witness :
    (socks5_parse_relay [0x05, 0xFF] 100).2 =
      .error (.connect "SOCKS5 handshake failed") ∧
    (socks5_parse_relay [5, 0, 5, 1, 0, 1] 100).2 =
      .error (.connect ("SOCKS5 UDP ASSOCIATE failed: REP=" ++
        toString 1)) ∧
    (socks5_parse_relay [5, 0, 5, 0, 0, 3] 100).2 =
      .error (.connect "Unsupported address type in SOCKS5 response") ∧
    (socks5_parse_relay goodProxyResp 100).2 =
      .ok ⟨IpAddr.v4 1 2 3 4, 8080⟩ :=
  ⟨socks5_client_error_handling.1 5 0xFF [] 100 (Or.inr (by decide)),
   socks5_client_error_handling.2.1 5 1 0 1 [] 100 (Or.inr (by decide)),
   socks5_client_error_handling.2.2.1 0 3 [] 100 (by decide) (by decide),
   socks5_client_error_handling.2.2.2.1 0 1 2 3 4 31 144 [] 100⟩

/-- Claim C3: evaluation of the code at a successful SOCKS5 exchange.
The source (lines 189-193) requests the relay socket with
`Type::STREAM` together with `Protocol::UDP`, not a datagram-type
socket as the spec states — the domain selection, address reuse,
wildcard bind on the desired local port and UDP-connect to the relay
address all match the claim, but the socket type does not. -/
theorem socks5_relay_socket_requests_stream_type :
    connect_endpoint envProxy ⟨some addr0, none⟩ 51820 none
        (some proxySocks5) =
      some ⟨⟨some addr0, some relaySockStored⟩, .ok relaySockRet,
        socks5_greeting ++ socks5_request 51820⟩ ∧
    relaySockRet.typ = SockType.stream ∧
    relaySockRet.typ ≠ SockType.dgram ∧
    relaySockRet.domain = Domain.for_address ⟨IpAddr.v4 1 2 3 4, 8080⟩ ∧
    relaySockRet.reuse_address = true ∧
    relaySockRet.bound_to = some ⟨IpAddr.v4 0 0 0 0, 51820⟩ ∧
    relaySockRet.connected_to = some ⟨IpAddr.v4 1 2 3 4, 8080⟩ :=
  ⟨rfl, rfl, by decide, rfl, rfl, rfl, rfl⟩

/-- Claim C4: `set_endpoint` with a different address shuts down the
open socket (both directions) if one exists and replaces `addr`,
leaving `conn = None`; in particular after a successful
`connect_endpoint` for `addr1`, a `set_endpoint addr2` with
`addr2 ≠ addr1` shuts the stored socket down and leaves
`⟨some addr2, none⟩`. -/
theorem set_endpoint_replaces :
    (∀ (e : Endpoint) (a2 : SocketAddr), e.addr ≠ some a2 →
      set_endpoint e a2 = (⟨some a2, none⟩, e.conn)) ∧
    (∀ (env : Env) (e : Endpoint) (a1 a2 : SocketAddr) (port : Nat)
        (fwmark : Option Nat) (proxy : Option ProxyConfig) (o : ConnectOut)
        (udp : Socket),
      e.addr = some a1 → a2 ≠ a1 →
      connect_endpoint env e port fwmark proxy = some o →
      o.result = .ok udp →
      o.state.conn.isSome = true ∧
      set_endpoint o.state a2 = (⟨some a2, none⟩, o.state.conn)) := by
  have base : ∀ (e : Endpoint) (a2 : SocketAddr), e.addr ≠ some a2 →
      set_endpoint e a2 = (⟨some a2, none⟩, e.conn) := by
    intro e a2 h
    simp [set_endpoint, h]
  refine ⟨base, ?_⟩
  intro env e a1 a2 port fwmark proxy o udp haddr hne hconn hok
  rcases connect_endpoint_cases env e port fwmark proxy o hconn with
    ⟨_, er, her⟩ | ⟨addr, udp', haddr', hcn, hres, hstate⟩
  · rw [hok] at her
    exact absurd her (by simp)
  · have haa : addr = a1 := by
      rw [haddr'] at haddr
      exact Option.some.inj haddr
    subst haa
    constructor
    · rw [hstate]
      rfl
    · apply base
      rw [hstate]
      simp
      intro hcontra
      exact hne hcontra.symm

/-- Witness for C4: replacing `addr0` by `addr1` on a connected
endpoint hands the stored socket to shutdown and clears `conn`, both
directly and after the concrete successful `connect_endpoint`. -/
theorem set_endpoint_replaces_witness :
    set_endpoint ⟨some addr0, some plainSockStored⟩ addr1 =
      (⟨some addr1, none⟩, some plainSockStored) ∧
    ((ConnectOut.mk ⟨some addr0, some plainSockStored⟩
        (.ok plainSockRet) []).state.conn.isSome = true ∧
      set_endpoint (ConnectOut.mk ⟨some addr0, some plainSockStored⟩
          (.ok plainSockRet) []).state addr1 =
        (⟨some addr1, none⟩,
         (ConnectOut.mk ⟨some addr0, some plainSockStored⟩
           (.ok plainSockRet) []).state.conn)) :=
  ⟨set_endpoint_replaces.1 ⟨some addr0, some plainSockStored⟩ addr1
     (by decide),
   set_endpoint_replaces.2 envAll ⟨some addr0, none⟩ addr0 addr1 51820
     none none
     ⟨⟨some addr0, some plainSockStored⟩, .ok plainSockRet, []⟩
     plainSockRet rfl (by decide) rfl rfl⟩

/-- Claim C5: `set_endpoint` with the already-current address is a
no-op — the state (including any open socket) is untouched and no
shutdown occurs — and calling it twice with the same address leaves
the state identical to calling it once. -/
theorem set_endpoint_noop_when_same :
    (∀ (e : Endpoint) (a : SocketAddr), e.addr = some a →
      set_endpoint e a = (e, none)) ∧
    (∀ (e : Endpoint) (a : SocketAddr),
      set_endpoint (set_endpoint e a).1 a = ((set_endpoint e a).1, none)) := by
  constructor
  · intro e a h
    simp [set_endpoint, h]
  · intro e a
    unfold set_endpoint
    by_cases h : e.addr = some a <;> simp [h]

/-- Witness for C5: `set_endpoint addr0` on a connected endpoint
whose address is already `addr0` changes nothing and shuts nothing
down. -/
theorem set_endpoint_noop_when_same_witness :
    set_endpoint ⟨some addr0, some plainSockStored⟩ addr0 =
      (⟨some addr0, some plainSockStored⟩, none) :=
  set_endpoint_noop_when_same.1 ⟨some addr0, some plainSockStored⟩ addr0 rfl

/-- Claim C6: `connect_endpoint` on an endpoint whose `conn` is
already `Some` fails immediately with the `Connect("Connected")`
(already-connected) error, leaving the state untouched and writing
nothing to any proxy; in particular a second `connect_endpoint` right
after a successful one fails that way. -/
theorem connect_endpoint_fails_when_connected :
    (∀ (env : Env) (e : Endpoint) (port : Nat) (fwmark : Option Nat)
        (proxy : Option ProxyConfig) (s : Socket), e.conn = some s →
      connect_endpoint env e port fwmark proxy =
        some ⟨e, .error (.connect "Connected"), []⟩) ∧
    (∀ (env : Env) (e : Endpoint) (port : Nat) (fwmark : Option Nat)
        (proxy : Option ProxyConfig) (o : ConnectOut) (udp : Socket)
        (env2 : Env) (port2 : Nat) (fwmark2 : Option Nat)
        (proxy2 : Option ProxyConfig),
      connect_endpoint env e port fwmark proxy = some o →
      o.result = .ok udp →
      connect_endpoint env2 o.state port2 fwmark2 proxy2 =
        some ⟨o.state, .error (.connect "Connected"), []⟩) := by
  have base : ∀ (env : Env) (e : Endpoint) (port : Nat) (fwmark : Option Nat)
      (proxy : Option ProxyConfig) (s : Socket), e.conn = some s →
      connect_endpoint env e port fwmark proxy =
        some ⟨e, .error (.connect "Connected"), []⟩ := by
    intro env e port fwmark proxy s h
    unfold connect_endpoint
    rw [if_pos (by simp [h])]
  refine ⟨base, ?_⟩
  intro env e port fwmark proxy o udp env2 port2 fwmark2 proxy2 h hok
  rcases connect_endpoint_cases env e port fwmark proxy o h with
    ⟨_, er, her⟩ | ⟨addr, udp', haddr', hcn, hres, hstate⟩
  · rw [hok] at her
    exact absurd her (by simp)
  · exact base env2 o.state port2 fwmark2 proxy2 _ (by rw [hstate])

/-- Witness for C6: the second `connect_endpoint` after the concrete
successful one fails with the already-connected error. -/
theorem connect_endpoint_fails_when_connected_witness :
    connect_endpoint envAll ⟨some addr0, some plainSockStored⟩ 51820
        none none =
      some ⟨⟨some addr0, some plainSockStored⟩,
        .error (.connect "Connected"), []⟩ :=
  connect_endpoint_fails_when_connected.2 envAll ⟨some addr0, none⟩ 51820
    none none ⟨⟨some addr0, some plainSockStored⟩, .ok plainSockRet, []⟩
    plainSockRet envAll 51820 none none rfl rfl

/-- Claim C7: in every endpoint state reachable from `Peer::new` by
`set_endpoint`, `connect_endpoint` and `shutdown_endpoint`, an open
`conn` implies `addr` is set and the stored socket was established
while `addr` held its current value (its ghost `for_addr` equals the
current address). -/
theorem conn_established_for_current_addr :
    ∀ (e : Endpoint), Reachable e → ∀ (s : Socket), e.conn = some s →
      ∃ a, e.addr = some a ∧ s.for_addr = some a := by
  intro e hr
  induction hr with
  | init a =>
    intro s hs
    exact absurd hs (by simp)
  | set e a _ ih =>
    intro s hs
    by_cases h : e.addr = some a
    · rw [show (set_endpoint e a).1 = e by simp [set_endpoint, h]] at hs ⊢
      exact ih s hs
    · rw [show (set_endpoint e a).1 = ⟨some a, none⟩ by
        simp [set_endpoint, h]] at hs
      exact absurd hs (by simp)
  | connect e env port fwmark proxy o _ hcall ih =>
    intro s hs
    rcases connect_endpoint_cases env e port fwmark proxy o hcall with
      ⟨hst, _, _⟩ | ⟨addr, udp', haddr', hcn, hok, hstate⟩
    · rw [hst] at hs ⊢
      exact ih s hs
    · rw [hstate] at hs ⊢
      simp only [Option.some.injEq] at hs
      subst hs
      exact ⟨addr, rfl, rfl⟩
  | shutdown e _ ih =>
    intro s hs
    rcases hc : e.conn with _ | c
    · rw [show (shutdown_endpoint e).1 = e by
        simp [shutdown_endpoint, hc]] at hs ⊢
      exact ih s hs
    · rw [show (shutdown_endpoint e).1 = ⟨e.addr, none⟩ by
        simp [shutdown_endpoint, hc]] at hs
      exact absurd hs (by simp)

/-- Witness for C7: the invariant evaluated on the state reached by a
concrete successful `connect_endpoint` from a fresh endpoint. -/
theorem conn_established_for_current_addr_witness :
    ∃ a, (Endpoint.mk (some addr0) (some plainSockStored)).addr = some a ∧
      plainSockStored.for_addr = some a :=
  conn_established_for_current_addr ⟨some addr0, some plainSockStored⟩
    (Reachable.connect ⟨some addr0, none⟩ envAll 51820 none none
      ⟨⟨some addr0, some plainSockStored⟩, .ok plainSockRet, []⟩
      (Reachable.init (some addr0)) rfl)
    plainSockStored rfl

/-- Claim C9 (amended): a proxy configuration whose type is not
`"socks5"` is not an error — `connect_endpoint` behaves exactly as in
the no-proxy path, creating a direct socket from the peer address's
family (no bind or connect is performed on it at this stage, as in
the no-proxy path). -/
theorem non_socks5_proxy_same_as_direct :
    ∀ (env : Env) (e : Endpoint) (port : Nat) (fwmark : Option Nat)
      (cfg : ProxyConfig), cfg.proxy_type ≠ "socks5".data →
      connect_endpoint env e port fwmark (some cfg) =
        connect_endpoint env e port fwmark none := by
  intro env e port fwmark cfg h
  have hcsr : ∀ addr, connect_socket_result env addr port (some cfg) =
      connect_socket_result env addr port none := by
    intro addr
    simp only [connect_socket_result]
    rw [if_neg h]
  unfold connect_endpoint
  simp only [hcsr]

/-- Witness for C9: the `"http"` proxy configuration takes the
fallback and is indistinguishable from the no-proxy call. -/
theorem non_socks5_proxy_same_as_direct_witness :
    proxyHttp.proxy_type ≠ "socks5".data ∧
    connect_endpoint envAll ⟨some addr0, none⟩ 51820 none
        (some proxyHttp) =
      connect_endpoint envAll ⟨some addr0, none⟩ 51820 none none :=
  ⟨by decide,
   non_socks5_proxy_same_as_direct envAll ⟨some addr0, none⟩ 51820 none
     proxyHttp (by decide)⟩

/-- Counterexample for C9 as stated: on the `"http"` fallback (peer
address `addr0`), `connect_endpoint` succeeds but the socket it
creates, stores and returns is never bound (nor UDP-connected) to
anything — in particular not "bound to the peer's real target
address" as the claim says. -/
theorem http_fallback_socket_not_bound :
    connect_endpoint envAll ⟨some addr0, none⟩ 51820 none
        (some proxyHttp) =
      some ⟨⟨some addr0, some plainSockStored⟩, .ok plainSockRet, []⟩ ∧
    plainSockRet.bound_to = none ∧
    plainSockStored.bound_to = none ∧
    plainSockRet.connected_to = none :=
  ⟨rfl, rfl, rfl, rfl⟩

/-- Claim C10: whenever `connect_endpoint` returns an error of any
kind, the endpoint state is exactly as before the call — `addr` and
`conn` unchanged, and in particular `conn` stays `None` when it was
`None` (no partially-established socket is ever stored). -/
theorem connect_endpoint_error_keeps_state :
    ∀ (env : Env) (e : Endpoint) (port : Nat) (fwmark : Option Nat)
      (proxy : Option ProxyConfig) (o : ConnectOut) (er : Error),
      connect_endpoint env e port fwmark proxy = some o →
      o.result = .error er →
      o.state = e ∧ o.state.addr = e.addr ∧ o.state.conn = e.conn ∧
      (e.conn = none → o.state.conn = none) := by
  intro env e port fwmark proxy o er h hres
  rcases connect_endpoint_cases env e port fwmark proxy o h with
    ⟨hst, _, _⟩ | ⟨addr, udp', haddr', hcn, hok, hstate⟩
  · exact ⟨hst, by rw [hst], by rw [hst], fun hc => by rw [hst]; exact hc⟩
  · rw [hres] at hok
    exact absurd hok (by simp)

/-- Witness for C10: a failed `set_nonblocking` leaves the fresh
endpoint exactly as it was. -/
theorem connect_endpoint_error_keeps_state_witness :
    (ConnectOut.mk ⟨some addr0, none⟩
        (.error (.ioError "set_nonblocking failed")) []).state =
      ⟨some addr0, none⟩ ∧
    (ConnectOut.mk ⟨some addr0, none⟩
        (.error (.ioError "set_nonblocking failed")) []).state.addr =
      (Endpoint.mk (some addr0) none).addr ∧
    (ConnectOut.mk ⟨some addr0, none⟩
        (.error (.ioError "set_nonblocking failed")) []).state.conn =
      (Endpoint.mk (some addr0) none).conn ∧
    ((Endpoint.mk (some addr0) none).conn = none →
      (ConnectOut.mk ⟨some addr0, none⟩
        (.error (.ioError "set_nonblocking failed")) []).state.conn = none) :=
  connect_endpoint_error_keeps_state envNoNb ⟨some addr0, none⟩ 51820 none
    none ⟨⟨some addr0, none⟩, .error (.ioError "set_nonblocking failed"), []⟩
    (.ioError "set_nonblocking failed") rfl rfl

end Boringtun
